import Mathlib

/-!
Verification of the Tier-2 batch-analysis and signal-classification core of
the Stroke repository, as a shallow embedding in Lean 4.

The embedding covers `src/agent/gemini_analyzer.py` (the `GeminiAnalyzer`
class: rule-based mock analyzer, batch formatter and size estimator, batch
splitting, the retry / model-fallback state machine, and response parsing)
and `src/agent/signal_classifier.py` (the `SignalClassifier` class).

Modelling conventions:
- Python floats are modelled as `ℚ`; Python ints as `Int` (or `Nat` for
  indices); Python strings as `String`; Python dicts with a fixed key set
  as structures.
- Remote calls are modelled by a stream (`List`) of `RemoteOutcome`s held in
  the analyzer state; each issued request consumes one element of the
  stream (an exhausted stream behaves as a generic transient error).
- `time.sleep` is modelled by recording the slept duration in the state;
  `datetime.utcnow().isoformat()` is modelled by a `now : String` component
  of the state that the run never changes.
- The recursion of `_gemini_analyze_batch` through `_analyze_with_splitting`
  is made structural with a fuel parameter; fuel at least the batch length
  is always sufficient because every split produces strictly shorter chunks.

The rational-number operations of the standard library are sealed against
unfolding by default; they are unsealed here so that concrete witnesses
evaluate by `decide`.
-/

unseal Rat.add Rat.mul Rat.sub Rat.inv Rat.ofScientific

/-! ## Generic helpers -/

/-- `chunksOfFuel cs fuel l` splits `l` into consecutive chunks of `cs`
elements (the Python slicing loop `[l[i:i+cs] for i in range(0, len(l), cs)]`),
with `fuel` bounding the recursion depth; `fuel = l.length` suffices
whenever `1 ≤ cs`. -/
def chunksOfFuel {α : Type} (cs : Nat) : Nat → List α → List (List α)
  | _, [] => []
  | 0, x :: xs => [x :: xs]
  | fuel + 1, x :: xs => (x :: xs).take cs :: chunksOfFuel cs fuel ((x :: xs).drop cs)

/-- `chunksOf cs l` is the chunking of `l` into slices of length `cs`. -/
def chunksOf {α : Type} (cs : Nat) (l : List α) : List (List α) :=
  chunksOfFuel cs l.length l

/-- Containment of one character list in another, the Python substring
test `sub in s`. -/
def subOf (sub : List Char) : List Char → Bool
  | [] => sub.isEmpty
  | c :: rest => sub.isPrefixOf (c :: rest) || subOf sub rest

/-- First key of maximal value in an association list; Python
`max(d, key=d.get)` returns the first key attaining the maximum in
insertion order, which this fold reproduces by replacing the current best
only on a strictly larger value. -/
def argmaxFirst (pairs : List (String × ℚ)) : String :=
  match pairs with
  | [] => ""
  | kv :: rest => (rest.foldl (fun best p => if p.2 > best.2 then p else best) kv).1

/-- Python `str.lower()` (ASCII, which covers every string in this code):
each character lowered in place. -/
def pyLower (s : String) : String := String.mk (s.data.map Char.toLower)

/-- Python `str.upper()` (ASCII): each character uppered in place. -/
def pyUpper (s : String) : String := String.mk (s.data.map Char.toUpper)

/-- Python `str(bool)`. -/
def pyBool : Bool → String
  | true => "True"
  | false => "False"

/-- Round-half-even to the nearest integer, the tie-breaking rule Python
uses when formatting floats with a fixed number of decimals. -/
def roundHalfEven (q : ℚ) : Int :=
  let f := ⌊q⌋
  let r := q - (f : ℚ)
  if r < 1/2 then f
  else if 1/2 < r then f + 1
  else if f % 2 = 0 then f else f + 1

/-- Insert thousands separators into a digit list (Python `,` format flag). -/
def groupThousands (s : List Char) : List Char :=
  (((chunksOf 3 s.reverse).intersperse [',']).flatten).reverse

/-- Python fixed-point float formatting `format(q, spec)` where `spec` is
`[+][,].precf`: `plus` renders a leading `+` on non-negatives, `comma`
inserts thousands separators, `prec` is the digit count after the point
(omitted entirely when `prec = 0`, as in `.0f`). Negative values rounding
to zero keep their sign, matching Python float formatting. -/
def pyFloat (plus comma : Bool) (prec : Nat) (q : ℚ) : String :=
  let scaled := roundHalfEven (q * (10 : ℚ) ^ prec)
  let neg : Bool := decide (scaled < 0) || (decide (scaled = 0) && decide (q < 0))
  let ds := (toString scaled.natAbs).data
  let ds := List.replicate (prec + 1 - ds.length) '0' ++ ds
  let ip := ds.take (ds.length - prec)
  let fp := ds.drop (ds.length - prec)
  let ip := if comma then groupThousands ip else ip
  let sign := if neg then "-" else if plus then "+" else ""
  sign ++ String.mk ip ++ (if prec = 0 then "" else "." ++ String.mk fp)

namespace Gemini

/-! ## Data model of `gemini_analyzer.py` -/

/-- `TokenSignal` from `data_ingestion.py`, the feature bundle carried by
every flagged item. -/
structure TokenSignal where
  token_symbol : String
  token_address : String
  chain : String
  timestamp : String
  tvl_change_24h : ℚ
  tvl_usd : ℚ
  liquidity_change_24h : ℚ
  holder_concentration_top10 : ℚ
  insider_sells_24h : Int
  insider_sell_volume_usd : ℚ
  twitter_engagement_change_48h : ℚ
  twitter_mentions_24h : Int
  twitter_sentiment_score : ℚ
  influencer_silence_hours : ℚ
  github_commits_7d : Int
  github_commit_change : ℚ
  dev_departures_30d : Int
  recent_vote_type : String
  vote_passed : Bool
  price_change_24h : ℚ
  volume_24h_usd : ℚ
  market_cap_usd : ℚ
  category : String
deriving DecidableEq

/-- `FlaggedToken` from `local_llm_screener.py`. -/
structure FlaggedToken where
  signal : TokenSignal
  urgency_score : Int
  reasoning : String
  flagged_at : String
deriving DecidableEq

/-- `TradePlan` dataclass of `gemini_analyzer.py`. -/
structure TradePlan where
  token_symbol : String
  token_address : String
  chain : String
  decision : String
  confidence : Int
  position_size_percent : ℚ
  position_size_usd : ℚ
  leverage : Int
  entry_price : ℚ
  take_profit_1 : ℚ
  take_profit_1_percent : ℚ
  take_profit_2 : ℚ
  take_profit_2_percent : ℚ
  take_profit_3 : ℚ
  take_profit_3_percent : ℚ
  stop_loss : ℚ
  stop_loss_percent : ℚ
  best_execution_chain : String
  estimated_gas_usd : ℚ
  reasoning : String
  risk_factors : List String
  analyzed_at : String
  urgency_score : Int
deriving DecidableEq

/-- `GeminiAnalyzer.MAX_TOKENS_PER_BATCH`. -/
def MAX_TOKENS_PER_BATCH : Nat := 30000

/-- `GeminiAnalyzer.MAX_BATCH_SIZE`. -/
def MAX_BATCH_SIZE : Nat := 20

/-- `GeminiAnalyzer.RETRY_DELAYS` (seconds). -/
def RETRY_DELAYS : List ℚ := [3, 6, 12]

/-- `GeminiAnalyzer.MODELS`, the fallback chain in order of preference. -/
def MODELS : List String :=
  ["gemini-2.0-flash", "gemini-1.5-flash", "gemini-1.5-flash-8b", "gemini-1.5-pro"]

/-! ## Batch formatting and size estimation -/

/-- One token block of `GeminiAnalyzer._format_tokens_batch`, the f-string
body for `TOKEN {idx}` with Python format specifiers reproduced by
`pyFloat`. -/
def formatTokenText (idx : Nat) (flagged : FlaggedToken) : String :=
  let s := flagged.signal
  "\nTOKEN " ++ toString idx ++ ":\nSymbol: " ++ s.token_symbol
    ++ "\nAddress: " ++ s.token_address
    ++ "\nChain: " ++ s.chain
    ++ "\nCategory: " ++ s.category
    ++ "\nMarket Cap: $" ++ pyFloat false true 0 s.market_cap_usd
    ++ "\nUrgency Score: " ++ toString flagged.urgency_score
    ++ "/10\n\nON-CHAIN SIGNALS (24h):\n- TVL: $" ++ pyFloat false true 0 s.tvl_usd
    ++ " (" ++ pyFloat true false 1 s.tvl_change_24h
    ++ "%)\n- Liquidity Change: " ++ pyFloat true false 1 s.liquidity_change_24h
    ++ "%\n- Top 10 Holder Concentration: " ++ pyFloat false false 1 s.holder_concentration_top10
    ++ "%\n- Insider Sells: " ++ toString s.insider_sells_24h
    ++ " transactions, $" ++ pyFloat false true 0 s.insider_sell_volume_usd
    ++ "\n\nSOCIAL SIGNALS:\n- Twitter Engagement Change (48h): "
    ++ pyFloat true false 1 s.twitter_engagement_change_48h
    ++ "%\n- Twitter Mentions (24h): " ++ toString s.twitter_mentions_24h
    ++ "\n- Sentiment Score: " ++ pyFloat false false 2 s.twitter_sentiment_score
    ++ "\n- Influencer Silence: " ++ pyFloat false false 0 s.influencer_silence_hours
    ++ " hours\n\nPROTOCOL HEALTH:\n- GitHub Commits (7d): " ++ toString s.github_commits_7d
    ++ "\n- Commit Change: " ++ pyFloat true false 1 s.github_commit_change
    ++ "%\n- Developer Departures (30d): " ++ toString s.dev_departures_30d
    ++ "\n\nGOVERNANCE:\n- Recent Vote: " ++ s.recent_vote_type
    ++ "\n- Vote Passed: " ++ pyBool s.vote_passed
    ++ "\n\nTIER 1 REASONING: " ++ flagged.reasoning ++ "\n"

/-- `GeminiAnalyzer._format_tokens_batch`: blocks for items enumerated from
1, joined by a newline, after a newline and an 80-character ruler. -/
def formatTokensBatch (flagged_tokens : List FlaggedToken) : String :=
  let texts := (flagged_tokens.enumFrom 1).map fun p => formatTokenText p.1 p.2
  "\n" ++ String.mk (List.replicate 80 '=') ++ String.intercalate "\n" texts

/-- `GeminiAnalyzer._estimate_token_count`: character length floor-divided
by 4. -/
def estimateTokenCount (text : String) : Nat := text.length / 4

/-- `GeminiAnalyzer._should_split_batch`: batches of at most
`MAX_BATCH_SIZE` items are never split; larger ones are split exactly when
the per-item token average extrapolated from the first 5 items exceeds
`MAX_TOKENS_PER_BATCH`. -/
def shouldSplitBatch (flagged_tokens : List FlaggedToken) : Bool :=
  if flagged_tokens.length ≤ MAX_BATCH_SIZE then false
  else
    let tokens_data := formatTokensBatch (flagged_tokens.take 5)
    let avg_tokens_per_item : ℚ := (estimateTokenCount tokens_data : ℚ) / 5
    decide (avg_tokens_per_item * (flagged_tokens.length : ℚ) > (MAX_TOKENS_PER_BATCH : ℚ))

/-! ## The rule-based (mock / local-fallback) analyzer -/

/-- Confidence accumulation and risk-factor collection of
`GeminiAnalyzer._mock_analyze_batch`, in source order. -/
def mockConfidence (signal : TokenSignal) : Int × List String :=
  let acc : Int × List String := (0, [])
  let acc := if signal.insider_sells_24h > 5 ∧ signal.insider_sell_volume_usd > 500000 then
      (acc.1 + 25, acc.2 ++ ["Major insider dump detected"]) else acc
  let acc := if signal.liquidity_change_24h < -40 then
      (acc.1 + 20, acc.2 ++ ["Severe liquidity removal"]) else acc
  let acc := if signal.tvl_change_24h < -40 then
      (acc.1 + 20, acc.2 ++ ["TVL collapse"]) else acc
  let acc := if signal.twitter_engagement_change_48h < -60 then
      (acc.1 + 15, acc.2 ++ ["Twitter engagement crash"]) else acc
  let acc := if signal.dev_departures_30d > 2 then
      (acc.1 + 10, acc.2 ++ ["Multiple developer exits"]) else acc
  let acc := if signal.influencer_silence_hours > 72 then
      (acc.1 + 10, acc.2 ++ ["Prolonged influencer silence"]) else acc
  let acc := if signal.vote_passed ∧ signal.recent_vote_type = "treasury_raid" then
      (acc.1 + 15, acc.2 ++ ["Treasury raid vote passed"])
    else if signal.vote_passed ∧ signal.recent_vote_type = "inflation" then
      (acc.1 + 10, acc.2 ++ ["Token inflation approved"])
    else acc
  acc

/-- Decision thresholds of the rule-based analyzer. -/
def mockDecision (confidence : Int) : String :=
  if confidence ≥ 70 then "SHORT" else if confidence ≥ 50 then "MONITOR" else "PASS"

/-- Position-sizing step function of the rule-based analyzer. -/
def mockPositionSizePct (confidence : Int) : ℚ :=
  if confidence ≥ 90 then 20 else if confidence ≥ 80 then 15
  else if confidence ≥ 70 then 10 else 0

/-- Best execution chain: first key of maximal weighted liquidity in the
insertion-ordered `chain_liquidity` dict. -/
def mockBestChain (tvl_usd : ℚ) : String :=
  argmaxFirst [("ethereum", tvl_usd * 0.5), ("arbitrum", tvl_usd * 0.3),
    ("base", tvl_usd * 0.15), ("optimism", tvl_usd * 0.05)]

/-- `gas_costs.get(best_chain, 5.0)`. -/
def mockGas (chain : String) : ℚ :=
  if chain = "ethereum" then 25 else if chain = "arbitrum" then 2
  else if chain = "base" then 0.5 else if chain = "optimism" then 1.5 else 5

/-- One iteration of the `GeminiAnalyzer._mock_analyze_batch` loop: the
rule-based trade plan for one flagged token, with `now` standing for
`datetime.utcnow().isoformat()`. -/
def mockAnalyzeOne (now : String) (flagged : FlaggedToken) : TradePlan :=
  let signal := flagged.signal
  let cr := mockConfidence signal
  let confidence := cr.1
  let risk_factors := cr.2
  let decision := mockDecision confidence
  let position_size_pct := mockPositionSizePct confidence
  let position_size_usd := position_size_pct * 500
  let leverage : Int := if confidence < 85 then 2 else 5
  let current_price : ℚ := if signal.market_cap_usd > 10000000 then 1 else 0.5
  let tps : ℚ × ℚ × ℚ :=
    if signal.category = "memecoin" then (-33, -67, -85)
    else if signal.category = "defi" then (-25, -50, -70)
    else (-20, -40, -60)
  let best_chain := mockBestChain signal.tvl_usd
  let reasoning :=
    if decision = "SHORT" then
      "High-confidence short opportunity. " ++ String.intercalate " + " (risk_factors.take 3)
        ++ ". " ++ "Execute on " ++ best_chain ++ " for optimal liquidity."
    else if decision = "MONITOR" then
      "Moderate concerns detected: " ++ String.intercalate ", " (risk_factors.take 2)
        ++ ". " ++ "Requires additional confirmation before entering position."
    else "Insufficient evidence for short position. Signals below confidence threshold."
  { token_symbol := signal.token_symbol
    token_address := signal.token_address
    chain := signal.chain
    decision := decision
    confidence := min confidence 100
    position_size_percent := position_size_pct
    position_size_usd := position_size_usd
    leverage := leverage
    entry_price := current_price
    take_profit_1 := current_price * (1 + tps.1 / 100)
    take_profit_1_percent := tps.1
    take_profit_2 := current_price * (1 + tps.2.1 / 100)
    take_profit_2_percent := tps.2.1
    take_profit_3 := current_price * (1 + tps.2.2 / 100)
    take_profit_3_percent := tps.2.2
    stop_loss := current_price * 1.12
    stop_loss_percent := 12
    best_execution_chain := best_chain
    estimated_gas_usd := mockGas best_chain
    reasoning := reasoning
    risk_factors := risk_factors
    analyzed_at := now
    urgency_score := flagged.urgency_score }

/-- `GeminiAnalyzer._mock_analyze_batch`: the rule-based plan for every
item, in input order. -/
def mockAnalyzeBatch (now : String) (flagged_tokens : List FlaggedToken) : List TradePlan :=
  flagged_tokens.map (mockAnalyzeOne now)

/-! ## Remote responses and `_parse_gemini_response` -/

/-- One element of the `take_profit_levels` array of a remote decision
object. -/
structure TPLevel where
  level : Int
  price_target : ℚ
  close_percent : ℚ
deriving DecidableEq

/-- A remote decision object (one entry of the JSON array Gemini returns)
whose required keys are all present; `position_size_usd` and `leverage`
are read with `dict.get` defaults in the source and so are optional. -/
structure Analysis where
  token_symbol : String
  token_address : String
  chain : String
  decision : String
  confidence : Int
  position_size_percent : ℚ
  position_size_usd : Option ℚ
  leverage : Option Int
  take_profit_levels : List TPLevel
  stop_loss_percent : ℚ
  best_execution_chain : String
  reasoning : String
  risk_factors : List String
deriving DecidableEq

/-- The `TradePlan` built by the loop body of
`GeminiAnalyzer._parse_gemini_response` for one `(analysis, flagged)` pair;
`none` models the `KeyError`/`IndexError` path (fewer than three
take-profit levels), which the source logs and skips.  A decision object
with a missing required key is modelled upstream as a `none` entry of the
response list.  `current_price` is the hard-coded `1.0`. -/
def parseOne (now : String) (a : Analysis) (flagged : FlaggedToken) : Option TradePlan :=
  match a.take_profit_levels with
  | l0 :: l1 :: l2 :: _ =>
    let current_price : ℚ := 1
    some
      { token_symbol := a.token_symbol
        token_address := a.token_address
        chain := a.chain
        decision := a.decision
        confidence := a.confidence
        position_size_percent := a.position_size_percent
        position_size_usd := a.position_size_usd.getD (a.position_size_percent * 500)
        leverage := a.leverage.getD 2
        entry_price := current_price
        take_profit_1 := current_price * (1 + l0.price_target / 100)
        take_profit_1_percent := l0.price_target
        take_profit_2 := current_price * (1 + l1.price_target / 100)
        take_profit_2_percent := l1.price_target
        take_profit_3 := current_price * (1 + l2.price_target / 100)
        take_profit_3_percent := l2.price_target
        stop_loss := current_price * (1 + a.stop_loss_percent / 100)
        stop_loss_percent := a.stop_loss_percent
        best_execution_chain := a.best_execution_chain
        estimated_gas_usd := 5
        reasoning := a.reasoning
        risk_factors := a.risk_factors
        analyzed_at := now
        urgency_score := flagged.urgency_score }
  | _ => none

/-- `GeminiAnalyzer._parse_gemini_response`: on a length mismatch the whole
batch falls back to the rule-based analyzer; otherwise analyses are zipped
to items by position, skipping entries whose construction raises. -/
def parseGeminiResponse (now : String) (analyses : List (Option Analysis))
    (flagged_tokens : List FlaggedToken) : List TradePlan :=
  if analyses.length ≠ flagged_tokens.length then mockAnalyzeBatch now flagged_tokens
  else (analyses.zip flagged_tokens).filterMap fun p => p.1.bind fun a => parseOne now a p.2

/-- Outcome of one remote `generate_content` call, classified the way the
`except` chain of `_gemini_analyze_batch` classifies exceptions: a parsed
JSON array (entries `none` when a required key is missing), a 404 /
NOT_FOUND error, a 429 / RESOURCE_EXHAUSTED error, an error mentioning
quota (without the former markers), or any other error. -/
inductive RemoteOutcome where
  | success (analyses : List (Option Analysis))
  | notFound
  | rateLimited
  | quotaExhausted
  | other
deriving DecidableEq

/-- Mutable state of a `GeminiAnalyzer` instance relevant to batch
analysis, together with the modelled environment: `now` stands for the
wall clock read by `datetime.utcnow`, `outcomes` is the stream of pending
remote-call results, `sleeps` records every `time.sleep` duration in
order, and the counters mirror the `stats` dict entries the state machine
touches. -/
structure AnalyzerState where
  now : String
  modelIndex : Nat
  outcomes : List RemoteOutcome
  sleeps : List ℚ
  rateLimitHits : Nat
  modelFallbacks : Nat
  batchesSplit : Nat
  apiErrors : Nat
  batchRequests : Nat
deriving DecidableEq

/-- `GeminiAnalyzer._get_current_model`. -/
def currentModel (st : AnalyzerState) : String :=
  MODELS.getD (min st.modelIndex (MODELS.length - 1)) ""

/-- `GeminiAnalyzer._fallback_to_next_model`: advance the model index by
one and report `true` when not at the last entry, else report `false` and
leave the state unchanged. -/
def advanceModel (st : AnalyzerState) : Bool × AnalyzerState :=
  if st.modelIndex < MODELS.length - 1 then
    (true, { st with modelIndex := st.modelIndex + 1, modelFallbacks := st.modelFallbacks + 1 })
  else (false, st)

/-- Iterated `advanceModel`, for stating monotonicity of the fallback
chain over any sequence of operations (advancing is the only operation
that writes the index). -/
def advanceIter : Nat → AnalyzerState → AnalyzerState
  | 0, st => st
  | n + 1, st => advanceIter n (advanceModel st).2

/-- Issue one remote call: consume the head of the outcome stream (an
exhausted stream behaves as a generic transient error). -/
def nextOutcome (st : AnalyzerState) : RemoteOutcome × AnalyzerState :=
  match st.outcomes with
  | [] => (.other, st)
  | o :: rest => (o, { st with outcomes := rest })

/-- Record a `time.sleep`. -/
def recordSleep (d : ℚ) (st : AnalyzerState) : AnalyzerState :=
  { st with sleeps := st.sleeps ++ [d] }

/-- `min(MAX_BATCH_SIZE, math.ceil(n / 3))`, the chunk size of
`_analyze_with_splitting` for an `n`-item batch. -/
def chunkSizeOf (n : Nat) : Nat := min MAX_BATCH_SIZE ((n + 2) / 3)

/-- The chunk list `[tokens[i:i+chunk_size] for i in range(0, n, chunk_size)]`
computed by `_analyze_with_splitting`. -/
def planSplit (flagged_tokens : List FlaggedToken) : List (List FlaggedToken) :=
  chunksOf (chunkSizeOf flagged_tokens.length) flagged_tokens

/-- The sequential chunk loop of `_analyze_with_splitting`: analyze each
chunk with `recur` (which is `_gemini_analyze_batch`), concatenate the
plans in chunk order, and sleep 2 seconds after every non-final chunk. -/
def processChunks (recur : AnalyzerState → List FlaggedToken → AnalyzerState × List TradePlan) :
    List (List FlaggedToken) → AnalyzerState → AnalyzerState × List TradePlan
  | [], st => (st, [])
  | c :: rest, st =>
    let r1 := recur st c
    let st2 := if rest.isEmpty then r1.1 else recordSleep 2 r1.1
    let r2 := processChunks recur rest st2
    (r2.1, r1.2 ++ r2.2)

/-- `GeminiAnalyzer._analyze_with_splitting`: bump the split counter, then
run the chunk loop. -/
def analyzeWithSplitting (recur : AnalyzerState → List FlaggedToken → AnalyzerState × List TradePlan)
    (st : AnalyzerState) (flagged_tokens : List FlaggedToken) : AnalyzerState × List TradePlan :=
  processChunks recur (planSplit flagged_tokens)
    { st with batchesSplit := st.batchesSplit + 1 }

/-- The retry loop `for retry_attempt in range(len(RETRY_DELAYS) + 1)` of
`_gemini_analyze_batch`, with `attempts` the remaining attempt indices and
`recur` the recursive re-entry used by the splitting paths.  Branches, in
source order: success parses the response (length mismatches fall back to
the rule-based analyzer inside `parseGeminiResponse`); 404 advances the
model and retries immediately, or falls back to the rule-based analyzer
when the chain is exhausted; 429 counts a rate-limit hit, tries a model
advance, then splits a multi-item batch, then sleeps the next retry delay
for a single-item batch; a quota error splits a multi-item batch and
otherwise behaves like a generic error; a generic error counts an API
error and sleeps the next retry delay, falling back to the rule-based
analyzer once the budget is spent.  An exhausted loop returns the
rule-based fallback (the terminal `return` of the source). -/
def runAttempts (recur : AnalyzerState → List FlaggedToken → AnalyzerState × List TradePlan)
    (flagged_tokens : List FlaggedToken) :
    List Nat → AnalyzerState → AnalyzerState × List TradePlan
  | [], st => (st, mockAnalyzeBatch st.now flagged_tokens)
  | attempt :: rest, st =>
    let or := nextOutcome st
    let st := or.2
    match or.1 with
    | .success analyses =>
      let st := { st with batchRequests := st.batchRequests + 1 }
      (st, parseGeminiResponse st.now analyses flagged_tokens)
    | .notFound =>
      let ar := advanceModel st
      if ar.1 then runAttempts recur flagged_tokens rest ar.2
      else (ar.2, mockAnalyzeBatch ar.2.now flagged_tokens)
    | .rateLimited =>
      let st := { st with rateLimitHits := st.rateLimitHits + 1 }
      let ar := advanceModel st
      if ar.1 then runAttempts recur flagged_tokens rest ar.2
      else if 1 < flagged_tokens.length then analyzeWithSplitting recur ar.2 flagged_tokens
      else if attempt < RETRY_DELAYS.length then
        runAttempts recur flagged_tokens rest (recordSleep (RETRY_DELAYS.getD attempt 0) ar.2)
      else runAttempts recur flagged_tokens rest ar.2
    | .quotaExhausted =>
      if 1 < flagged_tokens.length then analyzeWithSplitting recur st flagged_tokens
      else
        let st := { st with apiErrors := st.apiErrors + 1 }
        if attempt < RETRY_DELAYS.length then
          runAttempts recur flagged_tokens rest (recordSleep (RETRY_DELAYS.getD attempt 0) st)
        else (st, mockAnalyzeBatch st.now flagged_tokens)
    | .other =>
      let st := { st with apiErrors := st.apiErrors + 1 }
      if attempt < RETRY_DELAYS.length then
        runAttempts recur flagged_tokens rest (recordSleep (RETRY_DELAYS.getD attempt 0) st)
      else (st, mockAnalyzeBatch st.now flagged_tokens)

/-- `GeminiAnalyzer._gemini_analyze_batch`: empty batches return
immediately; oversized batches are split before any remote call;
otherwise the retry loop runs with the full attempt budget.  `fuel`
bounds the recursion through splitting; every split produces strictly
shorter chunks, so `fuel ≥ flagged_tokens.length` always suffices. -/
def geminiAnalyzeBatch : Nat → AnalyzerState → List FlaggedToken →
    AnalyzerState × List TradePlan
  | _, st, [] => (st, [])
  | 0, st, _ :: _ => (st, [])
  | fuel + 1, st, t :: ts =>
    if shouldSplitBatch (t :: ts) then
      analyzeWithSplitting (geminiAnalyzeBatch fuel) st (t :: ts)
    else
      runAttempts (geminiAnalyzeBatch fuel) (t :: ts)
        (List.range (RETRY_DELAYS.length + 1)) st

/-- `GeminiAnalyzer.analyze_batch`: empty input short-circuits; mock mode
uses the rule-based analyzer directly; otherwise the remote state machine
runs.  (The telemetry the method updates afterwards — per-decision tallies
and the processing-time average — is not modelled; it does not affect the
returned plans.) -/
def analyzeBatch (mock_mode : Bool) (fuel : Nat) (st : AnalyzerState)
    (flagged_tokens : List FlaggedToken) : AnalyzerState × List TradePlan :=
  if flagged_tokens.isEmpty then (st, [])
  else if mock_mode then (st, mockAnalyzeBatch st.now flagged_tokens)
  else geminiAnalyzeBatch fuel st flagged_tokens

/-! ## Well-formed remote responses -/

/-- A response entry is well formed when the decision object is present
(no missing required key) and carries at least the three take-profit
levels the parser indexes. -/
def analysisOk : Option Analysis → Bool
  | none => false
  | some a => decide (3 ≤ a.take_profit_levels.length)

/-- A remote outcome is well formed when, if it is a success, every entry
of its decision array is well formed.  This is exactly the §6 contract of
the spec for successful responses; failure outcomes are unconstrained. -/
def outcomeOk : RemoteOutcome → Bool
  | .success analyses => analyses.all analysisOk
  | _ => true

/-- Every pending outcome of a stream is well formed. -/
def outcomesOk (l : List RemoteOutcome) : Bool := l.all outcomeOk

end Gemini

namespace Classifier

/-! ## Data model of `signal_classifier.py` -/

/-- `Strategy` enum. -/
inductive Strategy where
  | GMX_SHORT
  | CORRELATED_SHORT
  | DIP_BUY
  | SKIP
deriving DecidableEq

/-- `TokenType` enum. -/
inductive TokenType where
  | BLUE_CHIP
  | MEMECOIN
  | DEFI
  | UNKNOWN
deriving DecidableEq

/-- `MarketPhase` enum. -/
inductive MarketPhase where
  | PRE_RUG
  | POST_RUG
  | BOUNCE
  | UNCLEAR
deriving DecidableEq

/-- The classifier's own `TradePlan` dataclass (distinct from the
analyzer's). -/
structure TradePlan where
  token_symbol : String
  token_address : String
  chain : String
  confidence : Int
  position_size_usd : ℚ
  leverage : Int
  reasoning : String
  entry_price : Option ℚ := none
  take_profit : Option ℚ := none
  stop_loss : Option ℚ := none
deriving DecidableEq

/-- `Classification` dataclass. -/
structure Classification where
  strategy : Strategy
  token_type : TokenType
  market_phase : Option MarketPhase := none
  correlated_asset : Option String := none
  current_price : Option ℚ := none
  price_drop_24h : Option ℚ := none
  bounce_target : Option ℚ := none
  confidence_multiplier : ℚ := 1
  reason : Option String := none
deriving DecidableEq

/-- The price-data dict returned by the price collaborator. -/
structure PriceData where
  current : ℚ
  change_24h : ℚ
  volume_spike : Bool
  liquidity : ℚ
deriving DecidableEq

/-- `SignalClassifier.BLUE_CHIP_TOKENS`, in insertion order. -/
def BLUE_CHIP_TOKENS : List (String × String) :=
  [("WETH", "0x82aF49447D8a07e3bd95BD0d56f35241523fBab1"),
   ("WBTC", "0x2f2a2543B76A4166549F7aaB2e75Bef0aefC5B0f"),
   ("LINK", "0xf97f4df75117a78c1A5a0DBb814Af92458539FB4"),
   ("UNI", "0xFa7F8980b0f1E64A2062791cc3b0871572f1F7f0")]

/-- `SignalClassifier.CHAIN_CORRELATIONS`. -/
def CHAIN_CORRELATIONS : List (String × String) :=
  [("base", "WETH"), ("ethereum", "WETH"), ("arbitrum", "WETH"),
   ("optimism", "WETH"), ("polygon", "WETH"), ("bsc", "WBTC")]

/-- Memecoin keyword list of `_classify_token`. -/
def MEMECOIN_KEYWORDS : List String :=
  ["PEPE", "SHIB", "DOGE", "FLOKI", "ELON", "WOJAK", "TURBO"]

/-- DeFi keyword list of `_classify_token`. -/
def DEFI_KEYWORDS : List String :=
  ["AAVE", "UNI", "CRV", "SNX", "MKR", "COMP", "SUSHI"]

/-- `SignalClassifier._classify_token`: blue-chip by exact symbol key or
case-insensitive address, then keyword containment in the uppercased
symbol, defaulting to MEMECOIN. -/
def classifyToken (symbol address : String) : TokenType :=
  if BLUE_CHIP_TOKENS.any (fun p => p.1 == symbol) then .BLUE_CHIP
  else if BLUE_CHIP_TOKENS.any (fun p => pyLower p.2 == pyLower address) then .BLUE_CHIP
  else if MEMECOIN_KEYWORDS.any (fun k => subOf k.data (pyUpper symbol).data) then .MEMECOIN
  else if DEFI_KEYWORDS.any (fun k => subOf k.data (pyUpper symbol).data) then .DEFI
  else .MEMECOIN

/-- `SignalClassifier._detect_market_phase`. -/
def detectMarketPhase (price_data : PriceData) : MarketPhase :=
  let change_24h := price_data.change_24h
  let volume_spike := price_data.volume_spike
  if change_24h < -60 then .POST_RUG
  else if change_24h > 20 ∧ volume_spike = true then .PRE_RUG
  else if -60 < change_24h ∧ change_24h < -20 then .PRE_RUG
  else .UNCLEAR

/-- `SignalClassifier._get_correlated_asset`. -/
def getCorrelatedAsset (chain : String) : String :=
  ((CHAIN_CORRELATIONS.find? fun p => p.1 == pyLower chain).map Prod.snd).getD "WETH"

/-- The body of `SignalClassifier._classify_memecoin` once price data is
in hand: route by detected market phase. -/
def classifyMemecoinData (price_data : PriceData) (plan : TradePlan) : Classification :=
  match detectMarketPhase price_data with
  | .PRE_RUG =>
    { strategy := .CORRELATED_SHORT
      token_type := .MEMECOIN
      market_phase := some .PRE_RUG
      correlated_asset := some (getCorrelatedAsset plan.chain)
      confidence_multiplier := 0.7
      reason := some ("Memecoin rug imminent, shorting correlated "
        ++ getCorrelatedAsset plan.chain) }
  | .POST_RUG =>
    let current_price := price_data.current
    let bounce_target := current_price * 1.4
    { strategy := .DIP_BUY
      token_type := .MEMECOIN
      market_phase := some .POST_RUG
      current_price := some current_price
      price_drop_24h := some price_data.change_24h
      bounce_target := some bounce_target
      confidence_multiplier := 0.8
      reason := some ("Rug complete (" ++ pyFloat false false 1 price_data.change_24h
        ++ "% drop), buying dip for bounce") }
  | _ =>
    { strategy := .SKIP
      token_type := .MEMECOIN
      market_phase := some .UNCLEAR
      reason := some "Market phase unclear, not trading" }

/-- `SignalClassifier._classify_memecoin`, parametrized by the price
collaborator so that its consultation is explicit: missing price data
degrades to SKIP, otherwise the phase routing of `classifyMemecoinData`
runs. -/
def classifyMemecoinWith (getPrice : String → String → Option PriceData)
    (plan : TradePlan) : Classification :=
  match getPrice plan.token_address plan.chain with
  | none =>
    { strategy := .SKIP
      token_type := .MEMECOIN
      reason := some "No price data available" }
  | some price_data => classifyMemecoinData price_data plan

/-- `SignalClassifier._get_price_data`: the source's TODO stub, which
always returns the same mock record. -/
def getPriceData (_token_address _chain : String) : Option PriceData :=
  some { current := 0.0000012, change_24h := -85.0, volume_spike := false, liquidity := 50000 }

/-- `SignalClassifier._classify_blue_chip`. -/
def classifyBlueChip (plan : TradePlan) : Classification :=
  { strategy := .GMX_SHORT
    token_type := .BLUE_CHIP
    confidence_multiplier := 1
    reason := some ("GMX supports " ++ plan.token_symbol ++ " perpetual shorts") }

/-- `SignalClassifier.classify`, parametrized by the price collaborator:
route by token type (`_classify_defi` delegates to `_classify_memecoin`
in the source). -/
def classifyWith (getPrice : String → String → Option PriceData)
    (plan : TradePlan) : Classification :=
  match classifyToken plan.token_symbol plan.token_address with
  | .BLUE_CHIP => classifyBlueChip plan
  | .MEMECOIN => classifyMemecoinWith getPrice plan
  | .DEFI => classifyMemecoinWith getPrice plan
  | .UNKNOWN =>
    { strategy := .SKIP
      token_type := .UNKNOWN
      reason := some ("Unknown token type for " ++ plan.token_symbol) }

/-- The public `SignalClassifier.classify`, with the instance's own
`_get_price_data` plugged in. -/
def classify (plan : TradePlan) : Classification := classifyWith getPriceData plan

end Classifier

/-! ## Chunking lemmas -/

lemma chunksOfFuel_flatten {α : Type} (cs : Nat) :
    ∀ (fuel : Nat) (l : List α), (chunksOfFuel cs fuel l).flatten = l := by
  intro fuel
  induction fuel with
  | zero => intro l; cases l <;> simp [chunksOfFuel]
  | succ n ih =>
    intro l
    cases l with
    | nil => simp [chunksOfFuel]
    | cons x xs =>
      simp only [chunksOfFuel, List.flatten_cons, ih]
      exact List.take_append_drop cs (x :: xs)

lemma chunksOfFuel_get {α : Type} (cs : Nat) :
    ∀ (fuel : Nat) (l : List α), 1 ≤ cs → l.length ≤ fuel →
      ∀ i (hi : i < (chunksOfFuel cs fuel l).length),
        (chunksOfFuel cs fuel l).get ⟨i, hi⟩ = (l.drop (i * cs)).take cs := by
  intro fuel
  induction fuel with
  | zero =>
    intro l h1 hl i hi
    have : l = [] := List.length_eq_zero.mp (Nat.le_zero.mp hl)
    subst this
    simp [chunksOfFuel] at hi
  | succ n ih =>
    intro l h1 hl i hi
    cases l with
    | nil => simp [chunksOfFuel] at hi
    | cons x xs =>
      cases i with
      | zero => simp [chunksOfFuel]
      | succ j =>
        have hdrop : ((x :: xs).drop cs).length ≤ n := by
          simp only [List.length_drop]
          have := hl
          simp only [List.length_cons] at this
          omega
        have hj : j < (chunksOfFuel cs n ((x :: xs).drop cs)).length := by
          simpa [chunksOfFuel] using hi
        have := ih ((x :: xs).drop cs) h1 hdrop j hj
        simp only [chunksOfFuel, List.get_cons_succ]
        rw [this, List.drop_drop]
        congr 2
        ring

lemma chunksOfFuel_mem_length {α : Type} {cs fuel : Nat} {l : List α}
    (h1 : 1 ≤ cs) (hf : l.length ≤ fuel) {c : List α}
    (hc : c ∈ chunksOfFuel cs fuel l) : c.length ≤ cs := by
  obtain ⟨i, hi⟩ := List.mem_iff_get.mp hc
  rw [chunksOfFuel_get cs fuel l h1 hf i.1 i.2] at hi
  rw [← hi]
  simp [List.length_take]

namespace Gemini

/-! ## The batch-analysis specification -/

/-- `plan` is the output item a run of the analyzer produced for the input
item `item`: either the rule-based fallback plan, or the plan parsed from
some remote decision object zipped to `item` by position. -/
def PlanFor (now : String) (item : FlaggedToken) (plan : TradePlan) : Prop :=
  plan = mockAnalyzeOne now item ∨ ∃ a : Analysis, parseOne now a item = some plan

/-- Specification of one run of the batch state machine from state `st` on
input `toks`: the clock component is untouched, and, provided every
pending remote outcome is well formed, the remaining outcome stream stays
well formed and the output aligns one-to-one, in order, with the input. -/
def AnalyzeSpec (st : AnalyzerState) (toks : List FlaggedToken)
    (res : AnalyzerState × List TradePlan) : Prop :=
  res.1.now = st.now ∧
    (outcomesOk st.outcomes = true →
      outcomesOk res.1.outcomes = true ∧ List.Forall₂ (PlanFor st.now) toks res.2)

lemma forall₂_mockBatch (now : String) (toks : List FlaggedToken) :
    List.Forall₂ (PlanFor now) toks (mockAnalyzeBatch now toks) := by
  induction toks with
  | nil => exact List.Forall₂.nil
  | cons t ts ih => exact List.Forall₂.cons (Or.inl rfl) ih

lemma parseOne_isSome (now : String) {a : Analysis} (item : FlaggedToken)
    (h : 3 ≤ a.take_profit_levels.length) : ∃ p, parseOne now a item = some p := by
  rcases hl : a.take_profit_levels with _ | ⟨l0, _ | ⟨l1, _ | ⟨l2, rest⟩⟩⟩ <;>
    first
      | exact ⟨_, by unfold parseOne; rw [hl]⟩
      | simp [hl] at h

lemma forall₂_parse_zip (now : String) :
    ∀ (as : List (Option Analysis)) (ts : List FlaggedToken),
      as.all analysisOk = true → as.length = ts.length →
      List.Forall₂ (PlanFor now) ts
        ((as.zip ts).filterMap fun p => p.1.bind fun a => parseOne now a p.2) := by
  intro as
  induction as with
  | nil =>
    intro ts h hlen
    cases ts with
    | nil => exact List.Forall₂.nil
    | cons t ts' => simp at hlen
  | cons a as ih =>
    intro ts h hlen
    cases ts with
    | nil => simp at hlen
    | cons t ts' =>
      simp only [List.all_cons, Bool.and_eq_true] at h
      cases a with
      | none => simp [analysisOk] at h
      | some b =>
        have h3 : 3 ≤ b.take_profit_levels.length := by
          have := h.1
          simpa [analysisOk] using this
        obtain ⟨p, hp⟩ := parseOne_isSome now t h3
        have hlen' : as.length = ts'.length := by simpa using hlen
        have htail := ih ts' h.2 hlen'
        simp only [List.zip_cons_cons, List.filterMap_cons, Option.some_bind, hp]
        exact List.Forall₂.cons (Or.inr ⟨b, hp⟩) htail

lemma forall₂_parse (now : String) (analyses : List (Option Analysis))
    (toks : List FlaggedToken) (h : outcomeOk (.success analyses) = true) :
    List.Forall₂ (PlanFor now) toks (parseGeminiResponse now analyses toks) := by
  unfold parseGeminiResponse
  by_cases hlen : analyses.length = toks.length
  · simp only [hlen, ne_eq, not_true_eq_false, if_false]
    exact forall₂_parse_zip now analyses toks (by simpa [outcomeOk] using h) hlen
  · simp only [ne_eq, hlen, not_false_eq_true, if_true]
    exact forall₂_mockBatch now toks

lemma spec_mono {st st' : AnalyzerState} {toks : List FlaggedToken}
    {res : AnalyzerState × List TradePlan}
    (h : AnalyzeSpec st' toks res) (hnow : st'.now = st.now)
    (hok : outcomesOk st.outcomes = true → outcomesOk st'.outcomes = true) :
    AnalyzeSpec st toks res := by
  obtain ⟨h1, h2⟩ := h
  refine ⟨h1.trans hnow, fun hk => ?_⟩
  obtain ⟨ha, hb⟩ := h2 (hok hk)
  exact ⟨ha, by rwa [hnow] at hb⟩

lemma processChunks_spec
    (recur : AnalyzerState → List FlaggedToken → AnalyzerState × List TradePlan)
    (chunks : List (List FlaggedToken))
    (H : ∀ c ∈ chunks, ∀ st : AnalyzerState, AnalyzeSpec st c (recur st c)) :
    ∀ st : AnalyzerState, AnalyzeSpec st chunks.flatten (processChunks recur chunks st) := by
  induction chunks with
  | nil => intro st; exact ⟨rfl, fun h => ⟨h, List.Forall₂.nil⟩⟩
  | cons c rest ih =>
    intro st
    have hc := H c (List.mem_cons_self c rest) st
    have ih' := ih (fun d hd st' => H d (List.mem_cons_of_mem c hd) st')
    simp only [processChunks]
    set st2 := if rest.isEmpty then (recur st c).1 else recordSleep 2 (recur st c).1 with hst2
    have hst2now : st2.now = (recur st c).1.now := by
      by_cases h : rest.isEmpty <;> simp [hst2, h, recordSleep]
    have hst2outs : st2.outcomes = (recur st c).1.outcomes := by
      by_cases h : rest.isEmpty <;> simp [hst2, h, recordSleep]
    have hrest := ih' st2
    obtain ⟨hn1, hs1⟩ := hc
    obtain ⟨hn2, hs2⟩ := hrest
    refine ⟨by rw [hn2, hst2now, hn1], fun hk => ?_⟩
    obtain ⟨hok1, hf1⟩ := hs1 hk
    have hok2 : outcomesOk st2.outcomes = true := by rwa [hst2outs]
    obtain ⟨hok3, hf2⟩ := hs2 hok2
    refine ⟨hok3, ?_⟩
    have hf2' : List.Forall₂ (PlanFor st.now) rest.flatten (processChunks recur rest st2).2 := by
      rwa [hst2now, hn1] at hf2
    simpa using List.rel_append hf1 hf2'

lemma shouldSplitBatch_length {toks : List FlaggedToken}
    (h : shouldSplitBatch toks = true) : MAX_BATCH_SIZE < toks.length := by
  by_contra hle
  have : toks.length ≤ MAX_BATCH_SIZE := Nat.not_lt.mp hle
  simp [shouldSplitBatch, this] at h

lemma split_spec (fuel : Nat)
    (recur : AnalyzerState → List FlaggedToken → AnalyzerState × List TradePlan)
    (Hrec : ∀ (st : AnalyzerState) (c : List FlaggedToken), c.length ≤ fuel →
      AnalyzeSpec st c (recur st c))
    (toks : List FlaggedToken) (hcs1 : 1 ≤ chunkSizeOf toks.length)
    (hcsf : chunkSizeOf toks.length ≤ fuel) :
    ∀ st : AnalyzerState, AnalyzeSpec st toks (analyzeWithSplitting recur st toks) := by
  intro st
  have H : ∀ c ∈ planSplit toks, ∀ st' : AnalyzerState, AnalyzeSpec st' c (recur st' c) := by
    intro c hc st'
    have hlen : c.length ≤ chunkSizeOf toks.length :=
      chunksOfFuel_mem_length hcs1 (le_refl toks.length) hc
    exact Hrec st' c (le_trans hlen hcsf)
  have hmain := processChunks_spec recur (planSplit toks) H
    { st with batchesSplit := st.batchesSplit + 1 }
  have hflat : (planSplit toks).flatten = toks :=
    chunksOfFuel_flatten (chunkSizeOf toks.length) toks.length toks
  rw [hflat] at hmain
  exact spec_mono hmain rfl (fun h => h)

lemma runAttempts_spec (fuel : Nat)
    (recur : AnalyzerState → List FlaggedToken → AnalyzerState × List TradePlan)
    (Hrec : ∀ (st : AnalyzerState) (c : List FlaggedToken), c.length ≤ fuel →
      AnalyzeSpec st c (recur st c))
    (toks : List FlaggedToken) (hlen : toks.length ≤ fuel + 1) :
    ∀ (attempts : List Nat) (st : AnalyzerState),
      AnalyzeSpec st toks (runAttempts recur toks attempts st) := by
  have hsplit : 1 < toks.length →
      ∀ st : AnalyzerState, AnalyzeSpec st toks (analyzeWithSplitting recur st toks) := by
    intro h1
    refine split_spec fuel recur Hrec toks ?_ ?_
    · simp only [chunkSizeOf, MAX_BATCH_SIZE]
      omega
    · simp only [chunkSizeOf, MAX_BATCH_SIZE]
      omega
  intro attempts
  induction attempts with
  | nil => intro st; exact ⟨rfl, fun h => ⟨h, forall₂_mockBatch st.now toks⟩⟩
  | cons attempt rest ih =>
    intro st
    cases houts : st.outcomes with
    | nil =>
      -- exhausted stream behaves as a generic transient error
      simp only [runAttempts, nextOutcome, houts]
      by_cases hat : attempt < RETRY_DELAYS.length
      · simp only [hat, if_true]
        exact spec_mono (ih _) rfl (by simp [recordSleep, houts])
      · simp only [hat, if_false]
        exact ⟨rfl, fun h => ⟨by simpa [houts] using h, forall₂_mockBatch st.now toks⟩⟩
    | cons o rest' =>
      have htail : outcomesOk st.outcomes = true → outcomesOk rest' = true := by
        intro h
        rw [houts] at h
        simp only [outcomesOk, List.all_cons, Bool.and_eq_true] at h
        exact h.2
      cases o with
      | success analyses =>
        simp only [runAttempts, nextOutcome, houts]
        refine ⟨rfl, fun h => ⟨htail h, ?_⟩⟩
        have hok : outcomeOk (.success analyses) = true := by
          rw [houts] at h
          simp only [outcomesOk, List.all_cons, Bool.and_eq_true] at h
          exact h.1
        exact forall₂_parse st.now analyses toks hok
      | notFound =>
        simp only [runAttempts, nextOutcome, houts]
        by_cases hadv : st.modelIndex < MODELS.length - 1
        · simp only [advanceModel, hadv, if_true]
          exact spec_mono (ih _) rfl htail
        · simp only [advanceModel, hadv, if_false]
          exact ⟨rfl, fun h => ⟨htail h, forall₂_mockBatch st.now toks⟩⟩
      | rateLimited =>
        simp only [runAttempts, nextOutcome, houts]
        by_cases hadv : st.modelIndex < MODELS.length - 1
        · simp only [advanceModel, hadv, if_true]
          exact spec_mono (ih _) rfl htail
        · simp only [advanceModel, hadv, if_false]
          by_cases hgt : 1 < toks.length
          · simp only [hgt, if_true]
            exact spec_mono (hsplit hgt _) rfl htail
          · simp only [hgt, if_false]
            by_cases hat : attempt < RETRY_DELAYS.length
            · simp only [hat, if_true]
              exact spec_mono (ih _) rfl (by simpa [recordSleep] using htail)
            · simp only [hat, if_false]
              exact spec_mono (ih _) rfl htail
      | quotaExhausted =>
        simp only [runAttempts, nextOutcome, houts]
        by_cases hgt : 1 < toks.length
        · simp only [hgt, if_true]
          exact spec_mono (hsplit hgt _) rfl htail
        · simp only [hgt, if_false]
          by_cases hat : attempt < RETRY_DELAYS.length
          · simp only [hat, if_true]
            exact spec_mono (ih _) rfl (by simpa [recordSleep] using htail)
          · simp only [hat, if_false]
            exact ⟨rfl, fun h => ⟨htail h, forall₂_mockBatch st.now toks⟩⟩
      | other =>
        simp only [runAttempts, nextOutcome, houts]
        by_cases hat : attempt < RETRY_DELAYS.length
        · simp only [hat, if_true]
          exact spec_mono (ih _) rfl (by simpa [recordSleep] using htail)
        · simp only [hat, if_false]
          exact ⟨rfl, fun h => ⟨htail h, forall₂_mockBatch st.now toks⟩⟩

/-- Master specification: with fuel at least the batch length, a run of
`_gemini_analyze_batch` leaves the clock alone, keeps the pending outcome
stream well formed, and aligns its output one-to-one with its input. -/
lemma geminiAnalyzeBatch_spec : ∀ (fuel : Nat) (st : AnalyzerState)
    (toks : List FlaggedToken), toks.length ≤ fuel →
    AnalyzeSpec st toks (geminiAnalyzeBatch fuel st toks) := by
  intro fuel
  induction fuel with
  | zero =>
    intro st toks h
    have : toks = [] := List.length_eq_zero.mp (Nat.le_zero.mp h)
    subst this
    exact ⟨rfl, fun hok => ⟨hok, List.Forall₂.nil⟩⟩
  | succ n ih =>
    intro st toks hlen
    cases toks with
    | nil => exact ⟨rfl, fun hok => ⟨hok, List.Forall₂.nil⟩⟩
    | cons t ts =>
      simp only [geminiAnalyzeBatch]
      by_cases hsp : shouldSplitBatch (t :: ts) = true
      · simp only [hsp, if_true]
        have h20 := shouldSplitBatch_length hsp
        simp only [MAX_BATCH_SIZE] at h20
        have hlen' : (t :: ts).length ≤ n + 1 := hlen
        refine split_spec n (geminiAnalyzeBatch n) (fun st' c hc => ih st' c hc) (t :: ts)
          ?_ ?_ st
        · simp only [chunkSizeOf, MAX_BATCH_SIZE]
          simp only [List.length_cons] at h20 ⊢
          omega
        · simp only [chunkSizeOf, MAX_BATCH_SIZE]
          simp only [List.length_cons] at h20 hlen' ⊢
          omega
      · simp only [hsp, if_false]
        exact runAttempts_spec n (geminiAnalyzeBatch n) (fun st' c hc => ih st' c hc)
          (t :: ts) hlen (List.range (RETRY_DELAYS.length + 1)) st

/-! ## Concrete fixtures for witnesses and counterexamples -/

/-- An all-zero test signal. -/
def sigW : TokenSignal :=
  { token_symbol := "TOK", token_address := "0x1", chain := "ethereum", timestamp := "t",
    tvl_change_24h := 0, tvl_usd := 0, liquidity_change_24h := 0,
    holder_concentration_top10 := 0, insider_sells_24h := 0, insider_sell_volume_usd := 0,
    twitter_engagement_change_48h := 0, twitter_mentions_24h := 0,
    twitter_sentiment_score := 0, influencer_silence_hours := 0, github_commits_7d := 0,
    github_commit_change := 0, dev_departures_30d := 0, recent_vote_type := "neutral",
    vote_passed := false, price_change_24h := 0, volume_24h_usd := 0, market_cap_usd := 0,
    category := "memecoin" }

/-- A test flagged item wrapping `sigW`. -/
def itemW : FlaggedToken :=
  { signal := sigW, urgency_score := 7, reasoning := "r", flagged_at := "f" }

/-- A well-formed remote decision object for `sigW`. -/
def analysisW : Analysis :=
  { token_symbol := "TOK", token_address := "0x1", chain := "ethereum", decision := "SHORT",
    confidence := 80, position_size_percent := 10, position_size_usd := none,
    leverage := none,
    take_profit_levels := [⟨1, -20, 30⟩, ⟨2, -50, 40⟩, ⟨3, -75, 30⟩],
    stop_loss_percent := 12, best_execution_chain := "ethereum", reasoning := "ok",
    risk_factors := ["risk"] }

/-- A start state whose remote stream rate-limits once, fails transiently
once, then succeeds with two well-formed analyses. -/
def stW : AnalyzerState :=
  { now := "2025-01-01T00:00:00", modelIndex := 0,
    outcomes := [.rateLimited, .other, .success [some analysisW, some analysisW]],
    sleeps := [], rateLimitHits := 0, modelFallbacks := 0, batchesSplit := 0,
    apiErrors := 0, batchRequests := 0 }

/-- A start state that rate-limits on every one of seven pending calls. -/
def stRL : AnalyzerState :=
  { now := "2025-01-01T00:00:00", modelIndex := 0,
    outcomes := List.replicate 7 .rateLimited,
    sleeps := [], rateLimitHits := 0, modelFallbacks := 0, batchesSplit := 0,
    apiErrors := 0, batchRequests := 0 }

/-- A 25-item batch of compact items. -/
def batch25 : List FlaggedToken := List.replicate 25 itemW

/-! ## C1 -/

/-- C1: No-loss invariant.  For every list of flagged items (including the
empty list) and any mix of remote-call outcomes in the pending stream
(success, each failure class, mismatched response lengths — successful
responses being well formed per the collaborator contract, i.e. every
decision object present with its three take-profit levels), `analyze_batch`
returns exactly one `TradePlan` per input item: the output length equals
the input length, so no item is dropped and none is duplicated. -/
theorem c1_analyze_batch_no_loss (mock_mode : Bool) (fuel : Nat) (st : AnalyzerState)
    (toks : List FlaggedToken) (hfuel : toks.length ≤ fuel)
    (hok : outcomesOk st.outcomes = true) :
    (analyzeBatch mock_mode fuel st toks).2.length = toks.length := by
  unfold analyzeBatch
  cases toks with
  | nil => simp
  | cons t ts =>
    simp only [List.isEmpty_cons, if_false, Bool.false_eq_true]
    by_cases hm : mock_mode
    · simp [hm, mockAnalyzeBatch]
    · simp only [hm, if_false]
      have := (geminiAnalyzeBatch_spec fuel st (t :: ts) hfuel).2 hok
      exact this.2.length_eq.symm

set_option maxRecDepth 10000 in
/-- Witness for C1: a two-item batch against a stream that rate-limits,
errors transiently, then succeeds, yields exactly two plans. -/
theorem c1_analyze_batch_no_loss_witness :
    ([itemW, itemW] : List FlaggedToken).length ≤ 4 ∧ outcomesOk stW.outcomes = true ∧
      (analyzeBatch false 4 stW [itemW, itemW]).2.length = 2 :=
  ⟨by decide, by decide,
    c1_analyze_batch_no_loss false 4 stW [itemW, itemW] (by decide) (by decide)⟩

/-! ## C2 -/

/-- C2: Mismatch handling.  Whenever the parsed remote response list has a
length different from the number of input items, `_parse_gemini_response`
serves the whole batch from the rule-based local fallback: the result is
exactly the fallback plan of every input item (so nothing comes from the
partial remote result), one per item. -/
theorem c2_mismatch_whole_batch_fallback (now : String)
    (analyses : List (Option Analysis)) (toks : List FlaggedToken)
    (hmm : analyses.length ≠ toks.length) :
    parseGeminiResponse now analyses toks = toks.map (mockAnalyzeOne now) ∧
      (parseGeminiResponse now analyses toks).length = toks.length := by
  constructor
  · simp [parseGeminiResponse, hmm, mockAnalyzeBatch]
  · simp [parseGeminiResponse, hmm, mockAnalyzeBatch]

set_option maxRecDepth 10000 in
/-- Witness for C2: a 2-item response for a 3-item batch yields the three
fallback-produced plans. -/
theorem c2_mismatch_whole_batch_fallback_witness :
    ([some analysisW, some analysisW] : List (Option Analysis)).length ≠
        ([itemW, itemW, itemW] : List FlaggedToken).length ∧
      parseGeminiResponse "T" [some analysisW, some analysisW] [itemW, itemW, itemW] =
        [itemW, itemW, itemW].map (mockAnalyzeOne "T") :=
  ⟨by decide,
    (c2_mismatch_whole_batch_fallback "T" [some analysisW, some analysisW]
      [itemW, itemW, itemW] (by decide)).1⟩

/-! ## C3 -/

set_option maxRecDepth 10000 in
lemma formatTokenText_itemW_1 : (formatTokenText 1 itemW).length = 562 := by decide

set_option maxRecDepth 10000 in
lemma formatTokenText_itemW_2 : (formatTokenText 2 itemW).length = 562 := by decide

set_option maxRecDepth 10000 in
lemma formatTokenText_itemW_3 : (formatTokenText 3 itemW).length = 562 := by decide

set_option maxRecDepth 10000 in
lemma formatTokenText_itemW_4 : (formatTokenText 4 itemW).length = 562 := by decide

set_option maxRecDepth 10000 in
lemma formatTokenText_itemW_5 : (formatTokenText 5 itemW).length = 562 := by decide

lemma intercalate_five (s a b c d e : String) :
    String.intercalate s [a, b, c, d, e] = a ++ s ++ b ++ s ++ c ++ s ++ d ++ s ++ e := rfl

lemma formatTokensBatch_five_length (a b c d e : FlaggedToken) :
    (formatTokensBatch [a, b, c, d, e]).length =
      81 + ((formatTokenText 1 a).length + (formatTokenText 2 b).length +
        (formatTokenText 3 c).length + (formatTokenText 4 d).length +
        (formatTokenText 5 e).length + 4) := by
  simp only [formatTokensBatch]
  rw [show List.enumFrom 1 [a, b, c, d, e] = [(1, a), (2, b), (3, c), (4, d), (5, e)] from rfl]
  simp only [List.map]
  rw [intercalate_five]
  simp only [String.length_append]
  have h1 : ("\n" : String).length = 1 := by decide
  rw [h1]
  simp only [String.length, List.length_replicate]
  omega

lemma take_five_batch25 : batch25.take 5 = [itemW, itemW, itemW, itemW, itemW] := by decide

lemma estimate_batch25 :
    estimateTokenCount (formatTokensBatch (batch25.take 5)) = 723 := by
  rw [take_five_batch25]
  unfold estimateTokenCount
  rw [formatTokensBatch_five_length, formatTokenText_itemW_1, formatTokenText_itemW_2,
    formatTokenText_itemW_3, formatTokenText_itemW_4, formatTokenText_itemW_5]

/-- C3 counterexample: the claimed split predicate is the disjunction
"more than `MAX_BATCH_SIZE` items OR estimated tokens over budget", which
would make every 25-item batch split; but `_should_split_batch` on a
25-item batch of compact items (extrapolated estimate 723 ≤ 30000)
returns `false` — the item-count test is a necessary condition, not an
alternative — so the claimed "if and only if" and the claimed 25-item
scenario both fail on the code. -/
theorem c3_split_predicate_counterexample :
    MAX_BATCH_SIZE < batch25.length ∧ shouldSplitBatch batch25 = false := by
  refine ⟨by decide, ?_⟩
  have hgt : ¬ batch25.length ≤ MAX_BATCH_SIZE := by decide
  simp only [shouldSplitBatch, if_neg hgt]
  rw [estimate_batch25]
  rw [show batch25.length = 25 from rfl]
  decide

/-- C3 amended: the batch-splitting test returns true if and only if the
number of items exceeds `MAX_BATCH_SIZE` AND the token count extrapolated
from the 5-item sample prefix exceeds `MAX_TOKENS_PER_BATCH`; at most
`MAX_BATCH_SIZE` items never split regardless of the estimate, and a
25-item batch is split only when its extrapolated estimate also exceeds
the budget. -/
theorem c3_split_predicate_amended (toks : List FlaggedToken) :
    (toks.length ≤ MAX_BATCH_SIZE → shouldSplitBatch toks = false) ∧
    (MAX_BATCH_SIZE < toks.length →
      (shouldSplitBatch toks = true ↔
        (estimateTokenCount (formatTokensBatch (toks.take 5)) : ℚ) / 5 * (toks.length : ℚ)
          > (MAX_TOKENS_PER_BATCH : ℚ))) := by
  constructor
  · intro h
    simp [shouldSplitBatch, h]
  · intro h
    have h' : ¬ toks.length ≤ MAX_BATCH_SIZE := Nat.not_le.mpr h
    simp [shouldSplitBatch, h']

/-- Witness for C3 amended: a single-item batch is never split. -/
theorem c3_split_predicate_amended_witness :
    ([itemW] : List FlaggedToken).length ≤ MAX_BATCH_SIZE ∧
      shouldSplitBatch [itemW] = false :=
  ⟨by decide, (c3_split_predicate_amended [itemW]).1 (by decide)⟩

/-! ## C4 -/

set_option maxRecDepth 10000 in
/-- C4 counterexample: a single-item batch rate-limited on every attempt
against the 4-model chain advances the chain 3 times but consumes NO
backoff delay at all (the claimed delays 3s, 6s, 12s never happen): the
three model advances and the final exhausted attempt use up the whole
4-attempt budget, after which the local fallback produces the single
plan.  Only 4 of the 7 pending rate-limited outcomes are consumed. -/
theorem c4_rate_limit_exhaustion_counterexample :
    (∀ o ∈ stRL.outcomes, o = RemoteOutcome.rateLimited) ∧
      (geminiAnalyzeBatch 1 stRL [itemW]).1.modelFallbacks = 3 ∧
      (geminiAnalyzeBatch 1 stRL [itemW]).1.sleeps = [] ∧
      (geminiAnalyzeBatch 1 stRL [itemW]).1.outcomes.length = 3 ∧
      (geminiAnalyzeBatch 1 stRL [itemW]).2.length = 1 := by
  refine ⟨by decide, ?_, ?_, ?_, ?_⟩ <;> decide

/-- C4 amended: for a single-item batch whose remote call is rate limited
on every attempt, starting from model index 0 of the 4-model chain, the
chain advances exactly 3 times (each advance consuming one attempt of the
`len(RETRY_DELAYS) + 1 = 4`-attempt budget), exactly 4 remote outcomes
are consumed, no backoff delay is slept (the budget is spent before the
single-item retry branch can run), and the local rule-based fallback
produces exactly one plan whose decision follows the fixed thresholds
(SHORT at confidence ≥ 70, MONITOR at ≥ 50, else PASS). -/
theorem c4_rate_limit_exhaustion_amended (st : AnalyzerState) (item : FlaggedToken)
    (rest : List RemoteOutcome) (fuel : Nat) (hidx : st.modelIndex = 0)
    (houts : st.outcomes =
      .rateLimited :: .rateLimited :: .rateLimited :: .rateLimited :: rest) :
    geminiAnalyzeBatch (fuel + 1) st [item] =
      ({ st with
          outcomes := rest
          modelIndex := 3
          modelFallbacks := st.modelFallbacks + 3
          rateLimitHits := st.rateLimitHits + 4 },
        [mockAnalyzeOne st.now item]) ∧
      ((mockConfidence item.signal).1 ≥ 70 →
        (mockAnalyzeOne st.now item).decision = "SHORT") ∧
      ((mockConfidence item.signal).1 < 70 → (mockConfidence item.signal).1 ≥ 50 →
        (mockAnalyzeOne st.now item).decision = "MONITOR") ∧
      ((mockConfidence item.signal).1 < 50 →
        (mockAnalyzeOne st.now item).decision = "PASS") := by
  obtain ⟨nw, mi, outs, sl, rlh, mf, bs, ae, br⟩ := st
  simp only at hidx houts
  subst hidx
  subst houts
  refine ⟨rfl, ?_, ?_, ?_⟩
  · intro h
    simp only [mockAnalyzeOne, mockDecision]
    rw [if_pos h]
  · intro h1 h2
    simp only [mockAnalyzeOne, mockDecision]
    rw [if_neg (by omega), if_pos h2]
  · intro h
    simp only [mockAnalyzeOne, mockDecision]
    rw [if_neg (by omega), if_neg (by omega)]

set_option maxRecDepth 10000 in
/-- Witness for C4 amended, at the concrete all-rate-limited state. -/
theorem c4_rate_limit_exhaustion_amended_witness :
    stRL.modelIndex = 0 ∧
      stRL.outcomes = .rateLimited :: .rateLimited :: .rateLimited :: .rateLimited ::
        List.replicate 3 .rateLimited ∧
      geminiAnalyzeBatch 1 stRL [itemW] =
        ({ stRL with
            outcomes := List.replicate 3 .rateLimited
            modelIndex := 3
            modelFallbacks := 3
            rateLimitHits := 4 }, [mockAnalyzeOne stRL.now itemW]) :=
  ⟨rfl, rfl,
    (c4_rate_limit_exhaustion_amended stRL itemW (List.replicate 3 .rateLimited) 0
      rfl rfl).1⟩

/-! ## C5 -/

/-- C5: Split plan shape and order preservation.  For every non-empty item
list, the split plan partitions the items into contiguous chunks of size
`min(MAX_BATCH_SIZE, ceil(n/3))`: concatenating the chunks reconstructs
the input exactly, every chunk is at most that size (hence at most
`MAX_BATCH_SIZE`), and chunk `i` is exactly the contiguous slice of the
input starting at `i * chunkSize` (so each chunk holds items in their
original relative order).  Consequently — and for every processing path,
splitting included — the analyzer's output aligns one-to-one, in order,
with its input: output `i` is produced from input `i`. -/
theorem c5_plan_split_shape :
    (∀ l : List FlaggedToken, l ≠ [] →
      chunkSizeOf l.length = min MAX_BATCH_SIZE ((l.length + 2) / 3) ∧
      (planSplit l).flatten = l ∧
      (∀ c ∈ planSplit l, c.length ≤ chunkSizeOf l.length ∧ c.length ≤ MAX_BATCH_SIZE) ∧
      (∀ i (hi : i < (planSplit l).length),
        (planSplit l).get ⟨i, hi⟩ =
          (l.drop (i * chunkSizeOf l.length)).take (chunkSizeOf l.length))) ∧
    (∀ (fuel : Nat) (st : AnalyzerState) (toks : List FlaggedToken),
      toks.length ≤ fuel → outcomesOk st.outcomes = true →
      List.Forall₂ (PlanFor st.now) toks (analyzeBatch false fuel st toks).2) := by
  constructor
  · intro l hl
    have h1 : 1 ≤ chunkSizeOf l.length := by
      have : 1 ≤ l.length := List.length_pos.mpr hl
      simp only [chunkSizeOf, MAX_BATCH_SIZE]
      omega
    refine ⟨rfl, chunksOfFuel_flatten _ _ _, ?_, ?_⟩
    · intro c hc
      have hle := chunksOfFuel_mem_length h1 (le_refl l.length) hc
      refine ⟨hle, le_trans hle ?_⟩
      simp only [chunkSizeOf]
      exact Nat.min_le_left _ _
    · intro i hi
      exact chunksOfFuel_get _ _ _ h1 (le_refl _) i hi
  · intro fuel st toks hf hok
    cases toks with
    | nil => simp [analyzeBatch]
    | cons t ts =>
      have h := ((geminiAnalyzeBatch_spec fuel st (t :: ts) hf).2 hok).2
      simpa [analyzeBatch] using h

/-- Witness for C5 at a concrete 25-item batch. -/
theorem c5_plan_split_shape_witness :
    batch25 ≠ [] ∧ (planSplit batch25).flatten = batch25 :=
  ⟨by decide, (c5_plan_split_shape.1 batch25 (by decide)).2.1⟩

/-! ## C6 -/

lemma advanceModel_le (st : AnalyzerState) :
    st.modelIndex ≤ (advanceModel st).2.modelIndex := by
  unfold advanceModel
  by_cases h : st.modelIndex < MODELS.length - 1 <;> simp [h]

lemma advanceIter_le (n : Nat) :
    ∀ st : AnalyzerState, st.modelIndex ≤ (advanceIter n st).modelIndex := by
  induction n with
  | zero => intro st; exact le_refl _
  | succ k ih => intro st; exact le_trans (advanceModel_le st) (ih _)

lemma advanceIter_add (a b : Nat) :
    ∀ st : AnalyzerState, advanceIter (a + b) st = advanceIter b (advanceIter a st) := by
  induction a with
  | zero => intro st; simp [advanceIter, Nat.zero_add]
  | succ n ih =>
    intro st
    have h : n + 1 + b = (n + b) + 1 := by omega
    rw [h]
    show advanceIter (n + b) (advanceModel st).2 = _
    rw [ih (advanceModel st).2]
    rfl

/-- C6: Model fallback chain monotonicity.  `advance` increments the index
by one and reports `true` when not at the last entry; at (or beyond) the
last entry it reports `false` and leaves the state unchanged; a single
advance never decreases the index, nor does any sequence of advances (the
only operation that writes the index); and `current` returns the model at
the current index whenever the index is in range. -/
theorem c6_model_fallback_chain (st : AnalyzerState) :
    (st.modelIndex < MODELS.length - 1 →
      advanceModel st = (true,
        { st with
            modelIndex := st.modelIndex + 1
            modelFallbacks := st.modelFallbacks + 1 })) ∧
    (MODELS.length - 1 ≤ st.modelIndex → advanceModel st = (false, st)) ∧
    st.modelIndex ≤ (advanceModel st).2.modelIndex ∧
    (∀ n m : Nat, n ≤ m → (advanceIter n st).modelIndex ≤ (advanceIter m st).modelIndex) ∧
    (∀ h : st.modelIndex < MODELS.length,
      currentModel st = MODELS.get ⟨st.modelIndex, h⟩) := by
  refine ⟨fun h => ?_, fun h => ?_, advanceModel_le st, fun n m hnm => ?_, fun h => ?_⟩
  · simp [advanceModel, h]
  · simp [advanceModel, Nat.not_lt.mpr h]
  · have hm : m = n + (m - n) := by omega
    rw [hm, advanceIter_add n (m - n) st]
    exact advanceIter_le (m - n) (advanceIter n st)
  · have h4 : MODELS.length = 4 := rfl
    have hmin : min st.modelIndex (MODELS.length - 1) = st.modelIndex := by
      rw [h4] at h ⊢
      omega
    unfold currentModel
    rw [hmin]
    exact List.getD_eq_getElem _ _ h

/-- Witness for C6 at the concrete start state (index 0). -/
theorem c6_model_fallback_chain_witness :
    stW.modelIndex < MODELS.length - 1 ∧
      advanceModel stW = (true,
        { stW with
            modelIndex := stW.modelIndex + 1
            modelFallbacks := stW.modelFallbacks + 1 }) ∧
      currentModel stW = "gemini-2.0-flash" :=
  ⟨by decide, (c6_model_fallback_chain stW).1 (by decide),
    by rw [(c6_model_fallback_chain stW).2.2.2.2 (by decide)]; rfl⟩

/-! ## C7 -/

set_option maxRecDepth 10000 in
/-- C7 counterexample: the local rule-based fallback is NOT a pure
function of the signal's feature fields over every field of the result —
its `analyzed_at` field is the wall clock read at analysis time
(`datetime.utcnow().isoformat()`), so two runs on the same flagged item at
different clock readings produce unequal `TradePlan` values. -/
theorem c7_fallback_determinism_counterexample :
    mockAnalyzeOne "2025-01-01T00:00:00" itemW ≠
      mockAnalyzeOne "2025-01-01T00:00:01" itemW := by
  decide

/-- C7 amended: the rule-based fallback is deterministic up to the clock:
two runs on the same flagged item agree on every field except
`analyzed_at`, which records the clock reading of the run — the plan of a
run at time `t1` is exactly the plan of a run at time `t2` with the
`analyzed_at` field replaced by `t1`; in particular two runs at the same
clock reading yield identical plans. -/
theorem c7_fallback_determinism_amended (t1 t2 : String) (item : FlaggedToken) :
    mockAnalyzeOne t1 item = { mockAnalyzeOne t2 item with analyzed_at := t1 } ∧
      (mockAnalyzeOne t1 item).analyzed_at = t1 :=
  ⟨rfl, rfl⟩

end Gemini


namespace Classifier

/-! ## Concrete classifier fixtures -/

/-- A blue-chip trade plan. -/
def planWETH : TradePlan :=
  { token_symbol := "WETH", token_address := "0xabc", chain := "arbitrum", confidence := 80,
    position_size_usd := 1000, leverage := 2, reasoning := "bearish" }

/-- A memecoin trade plan. -/
def planPEPE : TradePlan :=
  { token_symbol := "PEPE", token_address := "0x6982508145454Ce325dDbE47a25d4ec3d2311933",
    chain := "ethereum", confidence := 80, position_size_usd := 1000, leverage := 2,
    reasoning := "dump" }

/-- Post-rug price data (85 percent drop). -/
def pdPostRug : PriceData :=
  { current := 0.0000012, change_24h := -85, volume_spike := false, liquidity := 50000 }

/-! ## C8 -/

/-- C8: Blue-chip routing.  For every trade plan whose symbol is a
blue-chip key or whose (case-insensitively compared) address is a
blue-chip address, `classify` returns strategy GMX_SHORT with confidence
multiplier 1.0 — and it does so for EVERY price-data collaborator, i.e.
the price collaborator is never consulted on this path. -/
theorem c8_blue_chip_routing (plan : TradePlan)
    (h : BLUE_CHIP_TOKENS.any (fun p => p.1 == plan.token_symbol) = true ∨
      BLUE_CHIP_TOKENS.any (fun p => pyLower p.2 == pyLower plan.token_address) = true) :
    ∀ getPrice : String → String → Option PriceData,
      classifyWith getPrice plan =
        { strategy := .GMX_SHORT
          token_type := .BLUE_CHIP
          confidence_multiplier := 1
          reason := some ("GMX supports " ++ plan.token_symbol ++ " perpetual shorts") } := by
  intro getPrice
  have htype : classifyToken plan.token_symbol plan.token_address = .BLUE_CHIP := by
    unfold classifyToken
    rcases h with h | h
    · rw [if_pos h]
    · by_cases h1 : BLUE_CHIP_TOKENS.any (fun p => p.1 == plan.token_symbol) = true
      · rw [if_pos h1]
      · rw [if_neg h1, if_pos h]
  unfold classifyWith
  rw [htype]
  rfl

/-- Witness for C8: a WETH plan routed with a price collaborator that has
no data at all still classifies to GMX_SHORT. -/
theorem c8_blue_chip_routing_witness :
    BLUE_CHIP_TOKENS.any (fun p => p.1 == planWETH.token_symbol) = true ∧
      classifyWith (fun _ _ => none) planWETH =
        { strategy := .GMX_SHORT
          token_type := .BLUE_CHIP
          confidence_multiplier := 1
          reason := some "GMX supports WETH perpetual shorts" } :=
  ⟨by decide, c8_blue_chip_routing planWETH (Or.inl (by decide)) (fun _ _ => none)⟩

/-! ## C9 -/

/-- C9: Market-phase routing for memecoin / DeFi plans once price data is
in hand.  A 24-hour change strictly below -60 is POST_RUG (checked first)
and yields DIP_BUY with bounce target `current * 1.4`, the drop recorded,
and multiplier 0.8; a change above +20 with a volume spike, or a change
strictly between -60 and -20, is PRE_RUG and yields CORRELATED_SHORT with
multiplier 0.7; anything else — the exact boundaries -60 and -20
included — is UNCLEAR and yields SKIP. -/
theorem c9_memecoin_market_phase (pd : PriceData) (plan : TradePlan) :
    (pd.change_24h < -60 →
      detectMarketPhase pd = .POST_RUG ∧
      classifyMemecoinData pd plan =
        { strategy := .DIP_BUY
          token_type := .MEMECOIN
          market_phase := some .POST_RUG
          current_price := some pd.current
          price_drop_24h := some pd.change_24h
          bounce_target := some (pd.current * 1.4)
          confidence_multiplier := 0.8
          reason := some ("Rug complete (" ++ pyFloat false false 1 pd.change_24h
            ++ "% drop), buying dip for bounce") }) ∧
    ((pd.change_24h > 20 ∧ pd.volume_spike = true) ∨
        (-60 < pd.change_24h ∧ pd.change_24h < -20) →
      detectMarketPhase pd = .PRE_RUG ∧
      (classifyMemecoinData pd plan).strategy = .CORRELATED_SHORT ∧
      (classifyMemecoinData pd plan).correlated_asset =
        some (getCorrelatedAsset plan.chain) ∧
      (classifyMemecoinData pd plan).confidence_multiplier = 0.7) ∧
    (¬ pd.change_24h < -60 → ¬ (pd.change_24h > 20 ∧ pd.volume_spike = true) →
      ¬ (-60 < pd.change_24h ∧ pd.change_24h < -20) →
      detectMarketPhase pd = .UNCLEAR ∧ (classifyMemecoinData pd plan).strategy = .SKIP) ∧
    (pd.change_24h = -60 ∨ pd.change_24h = -20 →
      detectMarketPhase pd = .UNCLEAR ∧ (classifyMemecoinData pd plan).strategy = .SKIP) := by
  refine ⟨fun h => ?_, fun h => ?_, fun h1 h2 h3 => ?_, fun h => ?_⟩
  · have hphase : detectMarketPhase pd = .POST_RUG := by
      unfold detectMarketPhase
      rw [if_pos h]
    refine ⟨hphase, ?_⟩
    unfold classifyMemecoinData
    rw [hphase]
  · have hphase : detectMarketPhase pd = .PRE_RUG := by
      unfold detectMarketPhase
      rcases h with ⟨h1, h2⟩ | ⟨h1, h2⟩
      · rw [if_neg (by intro hc; exact absurd h1 (by linarith)), if_pos ⟨h1, h2⟩]
      · rw [if_neg (by intro hc; exact absurd h1 (by linarith)),
          if_neg (by intro hc; exact absurd hc.1 (by linarith)), if_pos ⟨h1, h2⟩]
    refine ⟨hphase, ?_, ?_, ?_⟩ <;>
      · unfold classifyMemecoinData
        rw [hphase]
  · have hphase : detectMarketPhase pd = .UNCLEAR := by
      unfold detectMarketPhase
      rw [if_neg h1, if_neg h2, if_neg h3]
    refine ⟨hphase, ?_⟩
    unfold classifyMemecoinData
    rw [hphase]
  · have h1 : ¬ pd.change_24h < -60 := by rcases h with h | h <;> rw [h] <;> norm_num
    have h2 : ¬ (pd.change_24h > 20 ∧ pd.volume_spike = true) := by
      rcases h with h | h <;> rw [h] <;> intro hc <;> have := hc.1 <;> linarith
    have h3 : ¬ (-60 < pd.change_24h ∧ pd.change_24h < -20) := by
      rcases h with h | h <;> rw [h] <;> intro hc
      · linarith [hc.1]
      · linarith [hc.2]
    have hphase : detectMarketPhase pd = .UNCLEAR := by
      unfold detectMarketPhase
      rw [if_neg h1, if_neg h2, if_neg h3]
    refine ⟨hphase, ?_⟩
    unfold classifyMemecoinData
    rw [hphase]

/-- Witness for C9: price data with an 85 percent drop classifies to
DIP_BUY with the 1.4-times bounce target. -/
theorem c9_memecoin_market_phase_witness :
    pdPostRug.change_24h < -60 ∧
      classifyMemecoinData pdPostRug planPEPE =
        { strategy := .DIP_BUY
          token_type := .MEMECOIN
          market_phase := some .POST_RUG
          current_price := some pdPostRug.current
          price_drop_24h := some pdPostRug.change_24h
          bounce_target := some (pdPostRug.current * 1.4)
          confidence_multiplier := 0.8
          reason := some ("Rug complete (" ++ pyFloat false false 1 pdPostRug.change_24h
            ++ "% drop), buying dip for bounce") } :=
  ⟨by decide, ((c9_memecoin_market_phase pdPostRug planPEPE).1 (by decide)).2⟩

/-! ## C10 -/

lemma gmx_reason_ne (sym : String) :
    ("GMX supports " ++ sym ++ " perpetual shorts") ≠ "No price data available" := by
  intro h
  have hd := congrArg (fun s : String => s.data.head?) h
  simp only [String.data_append] at hd
  have hg : (("GMX supports ".data ++ sym.data) ++ " perpetual shorts".data).head? =
      some 'G' := rfl
  rw [hg] at hd
  exact absurd hd (by decide)

lemma classifyToken_trichotomy (s a : String) :
    classifyToken s a = .BLUE_CHIP ∨ classifyToken s a = .MEMECOIN ∨
      classifyToken s a = .DEFI := by
  unfold classifyToken
  split_ifs <;> simp

/-- C10 (implicit): the price-data stub always returns the same constant
record (current 0.0000012, change -85, no volume spike, liquidity 50000);
therefore every plan whose token type resolves to MEMECOIN or DEFI
deterministically classifies to DIP_BUY in phase POST_RUG with bounce
target `0.0000012 * 1.4`, and through the public `classify` the
CORRELATED_SHORT strategy and the no-price-data SKIP reason are
unreachable for every plan. -/
theorem c10_memecoin_constant_price (plan : TradePlan) :
    (classifyToken plan.token_symbol plan.token_address = .MEMECOIN ∨
        classifyToken plan.token_symbol plan.token_address = .DEFI →
      classify plan =
        { strategy := .DIP_BUY
          token_type := .MEMECOIN
          market_phase := some .POST_RUG
          current_price := some 0.0000012
          price_drop_24h := some (-85.0)
          bounce_target := some (0.0000012 * 1.4)
          confidence_multiplier := 0.8
          reason := some "Rug complete (-85.0% drop), buying dip for bounce" }) ∧
    (classify plan).strategy ≠ .CORRELATED_SHORT ∧
    (classify plan).reason ≠ some "No price data available" := by
  have hmeme : classifyMemecoinWith getPriceData plan =
      { strategy := .DIP_BUY
        token_type := .MEMECOIN
        market_phase := some .POST_RUG
        current_price := some 0.0000012
        price_drop_24h := some (-85.0)
        bounce_target := some (0.0000012 * 1.4)
        confidence_multiplier := 0.8
        reason := some "Rug complete (-85.0% drop), buying dip for bounce" } := rfl
  have hcases := classifyToken_trichotomy plan.token_symbol plan.token_address
  refine ⟨fun h => ?_, ?_, ?_⟩
  · unfold classify classifyWith
    rcases h with h | h <;> rw [h] <;> exact hmeme
  · unfold classify classifyWith
    rcases hcases with h | h | h <;> rw [h]
    · simp [classifyBlueChip]
    · rw [hmeme]; simp
    · rw [hmeme]; simp
  · unfold classify classifyWith
    rcases hcases with h | h | h <;> rw [h]
    · intro hcontra
      exact gmx_reason_ne plan.token_symbol (Option.some.inj hcontra)
    · rw [hmeme]; simp
    · rw [hmeme]; simp

/-- Witness for C10: a PEPE plan resolves to MEMECOIN and classifies to
the constant DIP_BUY record. -/
theorem c10_memecoin_constant_price_witness :
    classifyToken planPEPE.token_symbol planPEPE.token_address = .MEMECOIN ∧
      classify planPEPE =
        { strategy := .DIP_BUY
          token_type := .MEMECOIN
          market_phase := some .POST_RUG
          current_price := some 0.0000012
          price_drop_24h := some (-85.0)
          bounce_target := some (0.0000012 * 1.4)
          confidence_multiplier := 0.8
          reason := some "Rug complete (-85.0% drop), buying dip for bounce" } :=
  ⟨by decide, (c10_memecoin_constant_price planPEPE).1 (Or.inl (by decide))⟩

end Classifier
